import Mathlib

/-!
Verification of the session and ingestion logic of the Video Q&A
application (`src/app.py`).

The application is a single Streamlit script.  Each user interaction
re-runs the script top to bottom over the ambient session store
(`st.session_state`), which holds exactly three fields
(`app.py` lines 22-28): `chat_history`, `processed_video`,
`current_file_name`.  We embed one script re-run as a pure function
`scriptRun` from the session state, the inputs present on that run
(uploaded file, chat query, debug button), and the behaviour of the
remote GenAI service, to the next session state together with the list
of remote calls issued.  The ingestion helper `process_video`
(lines 32-68) is embedded separately and in more detail, including the
temp-file lifecycle and the polling loop, with remote behaviour given
as oracles and the unbounded `while` loop given fuel.
-/

namespace VideoQA

/-- A remote file object as returned by `client.files.upload` /
`client.files.get`: its resource name and the name of its lifecycle
state (the code compares `video_file.state.name` against the strings
`"PROCESSING"` and `"FAILED"`, lines 52 and 56). -/
structure MediaFile where
  name : String
  state : String
  deriving DecidableEq

/-- The ambient session store (`st.session_state`, lines 22-28):
`chat_history` is the ordered transcript of `(role, message)` turns,
`processed_video` the stored remote file object (the MediaHandle),
`current_file_name` the identity of the last uploaded file. -/
structure SessionState where
  chat_history : List (String × String)
  processed_video : Option MediaFile
  current_file_name : Option String
  deriving DecidableEq

/-- The initial session state (lines 23-28): empty transcript, no
handle, no file identity. -/
def initialState : SessionState :=
  { chat_history := [], processed_video := none, current_file_name := none }

/-- A Streamlit `UploadedFile`: its filename and its raw bytes.  The
code only ever compares the `name` (line 81); the bytes flow into
`process_video` alone (line 40). -/
structure UploadedFile where
  name : String
  content : List Nat
  deriving DecidableEq

/-- One element of the `contents` list of a remote request: either the
stored media file object or a plain text prompt. -/
inductive Content where
  | media (f : MediaFile)
  | text (t : String)
  deriving DecidableEq

/-- A remote call issued during one script run:
`ingest` is one invocation of `process_video` (lines 89-90),
`countTokens` one `client.models.count_tokens` request (lines 102-105),
`generate` one `client.models.generate_content` request
(lines 120-126 and 149-155). -/
inductive Call where
  | ingest (f : UploadedFile)
  | countTokens (contents : List Content)
  | generate (contents : List Content)
  deriving DecidableEq

/-- Whether a call is an invocation of `process_video`. -/
def Call.isIngestCall : Call → Bool
  | .ingest _ => true
  | _ => false

/-- The behaviour of the remote service during one script run, as seen
by the session logic.  `ingest` is the outcome of `process_video` for a
given uploaded file: `.error e` when it raises, `.ok none` when the
remote status came back `FAILED` (line 58), `.ok (some f)` when it
returns a file object.  `count_tokens` is the outcome of the
token-count request, `gen_debug` of the vision-debug generation, and
`gen_answer q` of the chat generation for query `q`; `.error` means the
call raised. -/
structure Remote where
  ingest : UploadedFile → Except String (Option MediaFile)
  count_tokens : Except String Nat
  gen_debug : Except String String
  gen_answer : String → Except String String

/-- The inputs present on one script re-run: the file sitting in the
uploader widget (line 77), the chat query just submitted if any
(line 135), and whether the Check Video Vision button fired
(line 118). -/
structure ScriptInput where
  uploaded : Option UploadedFile
  user_query : Option String
  check_vision : Bool

/-- The fixed diagnostic prompt of the Check Video Vision button
(line 124). -/
def debugPrompt : String :=
  "List the timestamps of the start and end of this video. Then describe the visual content of the very first second and the very last second."

/-- Lines 83-85: the reset performed when the uploaded file's name
differs from the stored one — handle cleared, transcript cleared, new
identity stored.  It runs before `process_video` is invoked
(line 89). -/
def resetForNewFile (_s : SessionState) (fileName : String) : SessionState :=
  { chat_history := [], processed_video := none, current_file_name := some fileName }

/-- Lines 79-90: the upload branch of one script run.  If the stored
identity equals the uploaded file's name nothing happens; otherwise the
session is reset and `process_video` runs, its result stored into
`processed_video`.  The third component records whether `process_video`
raised, in which case the script run aborts (no code after line 90
executes on that run). -/
def uploadBranch (s : SessionState) (f : UploadedFile) (rm : Remote) :
    SessionState × List Call × Bool :=
  if s.current_file_name = some f.name then (s, [], false)
  else
    let s1 := resetForNewFile s f.name
    match rm.ingest f with
    | .error _ => (s1, [Call.ingest f], true)
    | .ok v => ({ s1 with processed_video := v }, [Call.ingest f], false)

/-- Lines 137-160: the chat-input handler, given the stored handle `h`
and the submitted query `q`.  The user turn is appended to the
transcript first (line 141); then `generate_content` is called with
contents `[processed_video, user_query]` (lines 149-155); on success
the assistant turn is appended (line 158), on exception the handler
catches it (line 159) and appends nothing further. -/
def chatTurn (s : SessionState) (h : MediaFile) (q : String) (rm : Remote) :
    SessionState × List Call :=
  let s1 := { s with chat_history := s.chat_history ++ [("user", q)] }
  let call := Call.generate [Content.media h, Content.text q]
  match rm.gen_answer q with
  | .ok ans => ({ s1 with chat_history := s1.chat_history ++ [("assistant", ans)] }, [call])
  | .error _ => (s1, [call])

/-- Lines 93-165: the part of the script after the upload branch.  The
whole chat interface is gated on `st.session_state.processed_video`
being set (line 93).  When it is, the Video Inspector always issues a
`count_tokens` call (lines 102-105) whose result and any exception are
display-only (the `except` at line 114 catches the exception and the
token total only feeds the sidebar text); then, if the Check Video
Vision button fired, a `generate_content` call on the fixed diagnostic
prompt runs with no `try` around it (lines 120-127), so an exception
there aborts the script run; finally the chat-input handler runs if a
query was submitted. -/
def afterUpload (s : SessionState) (inp : ScriptInput) (rm : Remote) (t : List Call) :
    SessionState × List Call :=
  match s.processed_video with
  | none => (s, t)
  | some h =>
    let t1 := t ++ [Call.countTokens [Content.media h]]
    if inp.check_vision then
      let t2 := t1 ++ [Call.generate [Content.media h, Content.text debugPrompt]]
      match rm.gen_debug with
      | .error _ => (s, t2)
      | .ok _ =>
        match inp.user_query with
        | none => (s, t2)
        | some q =>
          let r := chatTurn s h q rm
          (r.1, t2 ++ r.2)
    else
      match inp.user_query with
      | none => (s, t1)
      | some q =>
        let r := chatTurn s h q rm
        (r.1, t1 ++ r.2)

/-- One whole script re-run (lines 73-165, with an API key present):
the upload branch, then — unless `process_video` raised — the gated
chat interface.  Returns the next session state and the remote calls
issued, in order. -/
def scriptRun (s : SessionState) (inp : ScriptInput) (rm : Remote) :
    SessionState × List Call :=
  match inp.uploaded with
  | none => afterUpload s inp rm []
  | some f =>
    let r := uploadBranch s f rm
    if r.2.2 then (r.1, r.2.1) else afterUpload r.1 inp rm r.2.1

/-! ## The ingestion helper `process_video` (lines 32-68) in detail -/

/-- The fixed polling interval: `time.sleep(2)` at line 53. -/
def POLL_INTERVAL : Nat := 2

/-- The behaviour of the remote Files API during one `process_video`
call: the outcome of `client.files.upload` (line 48) and, for each
`k`, the outcome of the `k`-th `client.files.get` re-fetch (line 54).
`.error` means the call raised. -/
structure PVGateway where
  upload : Except String MediaFile
  get : Nat → Except String MediaFile

/-- Lines 52-54: `while video_file.state.name == "PROCESSING":
time.sleep(2); video_file = client.files.get(...)`.  The loop has no
retry bound and no timeout, so we give it fuel: `none` means the loop
was still running after `fuel` re-fetches.  `k` counts the re-fetches
issued so far and `t` the time-units slept so far; on each iteration
the loop sleeps `POLL_INTERVAL` and then re-fetches.  A raise from the
re-fetch propagates (`.error`). -/
def pollLoop (get : Nat → Except String MediaFile) :
    Nat → MediaFile → Nat → Nat → Option (Except String MediaFile × Nat)
  | fuel, f, k, t =>
    if f.state = "PROCESSING" then
      match fuel with
      | 0 => none
      | Nat.succ fuel1 =>
        match get k with
        | .error e => some (.error e, t + POLL_INTERVAL)
        | .ok f1 => pollLoop get fuel1 f1 (k + 1) (t + POLL_INTERVAL)
    else some (.ok f, t)

/-- The staging step of `process_video` (lines 39-41): a
`NamedTemporaryFile(delete=False)` is created on disk, the uploaded
bytes are written into it, and its path is recorded.  `ok` is the
normal outcome.  `raiseBeforeCreate` models the temp-file creation
itself raising (no file on disk).  `raiseAfterCreate` models
`uploaded_file.read()` or `tmp_file.write(...)` raising after the file
was created on disk: the `with` block closes the file but, because
`delete=False`, does not remove it, `tmp_file_path` is never assigned,
and the `try`/`finally` of lines 43-68 has not been entered yet. -/
inductive Staging where
  | ok
  | raiseBeforeCreate (e : String)
  | raiseAfterCreate (e : String)
  deriving DecidableEq

/-- The outcome of one `process_video` call: the returned file object
(line 63), `None` for a `FAILED` remote status (line 58), or a raised
exception propagating to the caller. -/
inductive PVOutcome where
  | ok (f : MediaFile)
  | failedStatus
  | exn (e : String)
  deriving DecidableEq

/-- Lines 32-68, `process_video`: stage the bytes to a temp file,
upload, poll until the status leaves `PROCESSING`, return `None` on
`FAILED` and the file object otherwise; the `finally` at lines 65-68
removes the temp file when the `try` block exits.  The result pairs
the outcome with whether the temp file still exists on disk after the
call ends; `none` means the polling loop was still running after
`fuel` re-fetches. -/
def process_video (stg : Staging) (gw : PVGateway) (fuel : Nat) :
    Option (PVOutcome × Bool) :=
  match stg with
  | .raiseBeforeCreate e => some (.exn e, false)
  | .raiseAfterCreate e => some (.exn e, true)
  | .ok =>
    match gw.upload with
    | .error e => some (.exn e, false)
    | .ok f0 =>
      match pollLoop gw.get fuel f0 0 0 with
      | none => none
      | some (.error e, _) => some (.exn e, false)
      | some (.ok f, _) =>
        if f.state = "FAILED" then some (.failedStatus, false)
        else some (.ok f, false)

/-- A re-fetch oracle that never raises, for stating termination of the
poll loop purely in terms of the remote status sequence. -/
def pureGet (get : Nat → MediaFile) : Nat → Except String MediaFile :=
  fun n => .ok (get n)

/-! ## The token-based duration estimate (lines 109-112) -/

/-- Line 111: `est_seconds = total_tokens / 263` (Python float
division, modelled over the rationals). -/
def est_seconds (total_tokens : Nat) : ℚ :=
  (total_tokens : ℚ) / 263

/-! ## Concrete instances used by witnesses and counterexamples -/

/-- A remote file object whose processing already finished. -/
def fileC : MediaFile := { name := "files/demo", state := "ACTIVE" }

/-- A remote file object still processing. -/
def fileProc : MediaFile := { name := "files/demo", state := "PROCESSING" }

/-- A Files API behaviour whose upload returns an already-active file. -/
def pvGatewayC : PVGateway :=
  { upload := .ok fileC, get := fun _ => .ok fileC }

/-- A concrete upload. -/
def uploadA : UploadedFile := { name := "a.mp4", content := [1, 2, 3] }

/-- A concrete upload with a different name. -/
def uploadB : UploadedFile := { name := "b.mp4", content := [7] }

/-- A remote behaviour in which every call succeeds. -/
def rmOk : Remote :=
  { ingest := fun _ => .ok (some fileC)
    count_tokens := .ok 2630
    gen_debug := .ok "seen"
    gen_answer := fun _ => .ok "answer" }

/-- A remote behaviour in which ingestion reports a `FAILED` status. -/
def rmIngestFailed : Remote :=
  { rmOk with ingest := fun _ => .ok none }

/-- A remote behaviour in which the chat generation call raises. -/
def rmGenRaises : Remote :=
  { rmOk with gen_answer := fun _ => .error "boom" }

/-- A session state in the Ready state for file `a.mp4`, with one prior
exchange in the transcript. -/
def sReady : SessionState :=
  { chat_history := [("user", "hi"), ("assistant", "hello")]
    processed_video := some fileC
    current_file_name := some "a.mp4" }

/-- A session state after a failed ingestion of `a.mp4`: identity
stored, no handle, empty transcript. -/
def sFailed : SessionState :=
  { chat_history := [], processed_video := none, current_file_name := some "a.mp4" }

/-- A remote behaviour in which every call raises. -/
def rmAllRaise : Remote :=
  { ingest := fun _ => .error "err"
    count_tokens := .error "err"
    gen_debug := .error "err"
    gen_answer := fun _ => .error "err" }

/-- A status sequence that is `PROCESSING` on the first re-fetch and
done afterwards. -/
def getW : Nat → MediaFile := fun n => if n = 0 then fileProc else fileC

/-! ## Theorems -/

/-- Claim C2: when the chat generation call raises, the script run
leaves the transcript ending with the just-appended user turn, appends
no assistant turn, and leaves the stored MediaHandle and file identity
unchanged. -/
theorem failed_ask_keeps_user_turn_and_handle
    (s : SessionState) (h : MediaFile) (q e : String) (rm : Remote)
    (hpv : s.processed_video = some h) (hgen : rm.gen_answer q = .error e) :
    (scriptRun s ⟨none, some q, false⟩ rm).1.chat_history = s.chat_history ++ [("user", q)] ∧
    (scriptRun s ⟨none, some q, false⟩ rm).1.processed_video = some h ∧
    (scriptRun s ⟨none, some q, false⟩ rm).1.current_file_name = s.current_file_name := by
  simp [scriptRun, afterUpload, hpv, chatTurn, hgen]

/-- Witness for C2 at a concrete Ready session and a raising remote. -/
theorem failed_ask_keeps_user_turn_and_handle_witness :
    (scriptRun sReady ⟨none, some "q", false⟩ rmGenRaises).1.chat_history =
      sReady.chat_history ++ [("user", "q")] ∧
    (scriptRun sReady ⟨none, some "q", false⟩ rmGenRaises).1.processed_video = some fileC ∧
    (scriptRun sReady ⟨none, some "q", false⟩ rmGenRaises).1.current_file_name =
      sReady.current_file_name :=
  failed_ask_keeps_user_turn_and_handle sReady fileC "q" "boom" rmGenRaises rfl rfl

/-- Claim C3: a Ready session receiving an upload with a different
filename is reset by lines 83-85 — handle cleared, transcript cleared,
new identity stored — and this reset state is what is in place when
`process_video` is invoked; the upload branch issues exactly that one
ingestion call and ends with empty transcript and the new identity. -/
theorem new_upload_resets_before_ingestion
    (s : SessionState) (f : UploadedFile) (rm : Remote) (hdl : MediaFile)
    (_hready : s.processed_video = some hdl)
    (hdiff : s.current_file_name ≠ some f.name) :
    (resetForNewFile s f.name).processed_video = none ∧
    (resetForNewFile s f.name).chat_history = [] ∧
    (resetForNewFile s f.name).current_file_name = some f.name ∧
    (uploadBranch s f rm).1.chat_history = [] ∧
    (uploadBranch s f rm).1.current_file_name = some f.name ∧
    (uploadBranch s f rm).2.1 = [Call.ingest f] := by
  refine ⟨rfl, rfl, rfl, ?_⟩
  simp only [uploadBranch, if_neg hdiff]
  cases rm.ingest f <;> simp [resetForNewFile]

/-- Witness for C3 at a Ready session and a fresh filename. -/
theorem new_upload_resets_before_ingestion_witness :
    (resetForNewFile sReady uploadB.name).processed_video = none ∧
    (resetForNewFile sReady uploadB.name).chat_history = [] ∧
    (resetForNewFile sReady uploadB.name).current_file_name = some uploadB.name ∧
    (uploadBranch sReady uploadB rmOk).1.chat_history = [] ∧
    (uploadBranch sReady uploadB rmOk).1.current_file_name = some uploadB.name ∧
    (uploadBranch sReady uploadB rmOk).2.1 = [Call.ingest uploadB] :=
  new_upload_resets_before_ingestion sReady uploadB rmOk fileC rfl (by decide)

/-- Claim C4: an upload whose filename equals the stored identity is a
no-op — the upload branch returns the state unchanged with no
ingestion call, and a whole script run carrying only that upload leaves
the session state unchanged and triggers no `process_video` call.  The
uploaded bytes `f.content` are arbitrary, so this holds even when the
bytes differ from the original file's. -/
theorem same_name_upload_is_noop
    (s : SessionState) (f : UploadedFile) (rm : Remote)
    (hsame : s.current_file_name = some f.name) :
    uploadBranch s f rm = (s, [], false) ∧
    (scriptRun s ⟨some f, none, false⟩ rm).1 = s ∧
    ∀ c ∈ (scriptRun s ⟨some f, none, false⟩ rm).2, c.isIngestCall = false := by
  have hub : uploadBranch s f rm = (s, [], false) := by simp [uploadBranch, hsame]
  refine ⟨hub, ?_⟩
  cases hpv : s.processed_video with
  | none => simp [scriptRun, hub, afterUpload, hpv]
  | some h => simp [scriptRun, hub, afterUpload, hpv, Call.isIngestCall]

/-- Witness for C4: re-uploading `a.mp4` (with any bytes) into the
Ready session for `a.mp4`. -/
theorem same_name_upload_is_noop_witness :
    uploadBranch sReady uploadA rmOk = (sReady, [], false) ∧
    (scriptRun sReady ⟨some uploadA, none, false⟩ rmOk).1 = sReady :=
  ⟨(same_name_upload_is_noop sReady uploadA rmOk rfl).1,
   (same_name_upload_is_noop sReady uploadA rmOk rfl).2.1⟩

/-- Claim C6: in a Ready session, the chat handler's generation request
carries exactly the stored handle and the current query —
`contents = [processed_video, user_query]` (lines 149-155) — whatever
the transcript holds; the whole run's call trace is the inspector's
token count followed by that one generation call, with no transcript
turn resent. -/
theorem generate_contents_exactly_handle_and_query
    (s : SessionState) (h : MediaFile) (q : String) (rm : Remote)
    (hpv : s.processed_video = some h) :
    (scriptRun s ⟨none, some q, false⟩ rm).2 =
      [Call.countTokens [Content.media h],
       Call.generate [Content.media h, Content.text q]] := by
  simp only [scriptRun, afterUpload, hpv]
  cases hg : rm.gen_answer q <;> simp [chatTurn, hg]

/-- Witness for C6 at a Ready session with a non-empty transcript. -/
theorem generate_contents_exactly_handle_and_query_witness :
    (scriptRun sReady ⟨none, some "q", false⟩ rmOk).2 =
      [Call.countTokens [Content.media fileC],
       Call.generate [Content.media fileC, Content.text "q"]] :=
  generate_contents_exactly_handle_and_query sReady fileC "q" rmOk rfl

/-- Claim C8: the duration estimate is `total_tokens / 263` — so
multiplying it back by 263 recovers the token count - and at
2630 tokens it equals exactly 10 seconds (displayed as 10.00). -/
theorem est_seconds_div_263 :
    (∀ t : ℕ, est_seconds t * 263 = t) ∧ est_seconds 2630 = 10 := by
  constructor
  · intro t
    rw [est_seconds, div_mul_cancel₀]
    norm_num
  · rw [est_seconds]
    norm_num

/-- Claim C9: with a handle stored, a script run that performs only the
inspector's token count and the Check Video Vision debug call leaves
the session state — transcript, handle, file identity — unchanged,
whether those remote calls succeed or raise; in particular no turn is
appended. -/
theorem inspect_and_debug_preserve_state
    (s : SessionState) (h : MediaFile) (rm : Remote)
    (hpv : s.processed_video = some h) :
    (scriptRun s ⟨none, none, true⟩ rm).1 = s := by
  simp only [scriptRun, afterUpload, hpv]
  cases rm.gen_debug <;> simp

/-- Witness for C9 at the Ready session with a remote in which both the
token count and the debug generation raise. -/
theorem inspect_and_debug_preserve_state_witness :
    (scriptRun sReady ⟨none, none, true⟩ rmAllRaise).1 = sReady :=
  inspect_and_debug_preserve_state sReady fileC rmAllRaise rfl

/-- Claim C1: the chat-input generation call sits under the
`if st.session_state.processed_video:` gate (line 93), so with no
stored handle and no upload that ingests successfully — no upload, an
upload with the stored name, or an upload whose ingestion fails or
raises — a script run still ends with no handle and issues no
`count_tokens` or `generate_content` call at all; in particular no ask
call is possible. -/
theorem ask_unreachable_without_ready_handle
    (s : SessionState) (inp : ScriptInput) (rm : Remote)
    (hpv : s.processed_video = none)
    (hup : ∀ f, inp.uploaded = some f →
      s.current_file_name = some f.name ∨ ∀ h, rm.ingest f ≠ .ok (some h)) :
    (scriptRun s inp rm).1.processed_video = none ∧
    ∀ c ∈ (scriptRun s inp rm).2, c.isIngestCall = true := by
  cases hu : inp.uploaded with
  | none => simp [scriptRun, hu, afterUpload, hpv]
  | some f =>
    by_cases hc : s.current_file_name = some f.name
    · have hub : uploadBranch s f rm = (s, [], false) := by simp [uploadBranch, hc]
      simp [scriptRun, hu, hub, afterUpload, hpv]
    · rcases hup f hu with hsame | hfail
      · exact absurd hsame hc
      · cases hing : rm.ingest f with
        | error e =>
          have hub : uploadBranch s f rm =
              (resetForNewFile s f.name, [Call.ingest f], true) := by
            simp [uploadBranch, hc, hing]
          simp [scriptRun, hu, hub, resetForNewFile, Call.isIngestCall]
        | ok v =>
          have hv : v = none := by
            cases v with
            | none => rfl
            | some h => exact absurd hing (hfail h)
          subst hv
          have hub : uploadBranch s f rm =
              (resetForNewFile s f.name, [Call.ingest f], false) := by
            simp [uploadBranch, hc, hing, resetForNewFile]
          simp [scriptRun, hu, hub, afterUpload, resetForNewFile, Call.isIngestCall]

/-- Witness for C1: after a failed ingestion of `a.mp4`, a run that
still has `a.mp4` in the uploader, a pending query and the debug
button fired ends with no handle stored. -/
theorem ask_unreachable_without_ready_handle_witness :
    (scriptRun sFailed ⟨some uploadA, some "q", true⟩ rmIngestFailed).1.processed_video =
      none :=
  (ask_unreachable_without_ready_handle sFailed ⟨some uploadA, some "q", true⟩
    rmIngestFailed rfl
    (fun f hf => by
      simp only [Option.some.injEq] at hf
      subst hf
      exact Or.inl rfl)).1

/-- Claim C10: a failed ingestion (remote `FAILED` status or a raise)
leaves the session with the new file's identity already stored, an
empty transcript and no handle; from that state, any later run whose
uploader still holds a file with that same name changes nothing and
issues no remote call whatsoever — the session stays without a usable
handle until a differently-named file is uploaded. -/
theorem failed_ingestion_stores_identity_and_blocks_reingest
    (s : SessionState) (f : UploadedFile) (rm : Remote)
    (hdiff : s.current_file_name ≠ some f.name)
    (hfail : ∀ h, rm.ingest f ≠ .ok (some h)) :
    (scriptRun s ⟨some f, none, false⟩ rm).1 =
      { chat_history := [], processed_video := none, current_file_name := some f.name } ∧
    ∀ (inp2 : ScriptInput) (rm2 : Remote) (g : UploadedFile),
      inp2.uploaded = some g → g.name = f.name →
      scriptRun (scriptRun s ⟨some f, none, false⟩ rm).1 inp2 rm2 =
        ((scriptRun s ⟨some f, none, false⟩ rm).1, []) := by
  have hstate : (scriptRun s ⟨some f, none, false⟩ rm).1 =
      { chat_history := [], processed_video := none, current_file_name := some f.name } := by
    cases hing : rm.ingest f with
    | error e =>
      have hub : uploadBranch s f rm =
          (resetForNewFile s f.name, [Call.ingest f], true) := by
        simp [uploadBranch, hdiff, hing]
      simp [scriptRun, hub, resetForNewFile]
    | ok v =>
      have hv : v = none := by
        cases v with
        | none => rfl
        | some h => exact absurd hing (hfail h)
      subst hv
      have hub : uploadBranch s f rm =
          (resetForNewFile s f.name, [Call.ingest f], false) := by
        simp [uploadBranch, hdiff, hing, resetForNewFile]
      simp [scriptRun, hub, afterUpload, resetForNewFile]
  refine ⟨hstate, ?_⟩
  intro inp2 rm2 g hu2 hg
  rw [hstate]
  have hub2 : uploadBranch
      { chat_history := [], processed_video := none, current_file_name := some f.name }
      g rm2 =
      ({ chat_history := [], processed_video := none, current_file_name := some f.name },
        [], false) := by
    simp [uploadBranch, hg]
  simp [scriptRun, hu2, hub2, afterUpload]

/-- Witness for C10: ingestion of `b.mp4` from the Ready `a.mp4`
session reports `FAILED`; the resulting state holds `b.mp4` with no
handle and empty transcript. -/
theorem failed_ingestion_stores_identity_and_blocks_reingest_witness :
    (scriptRun sReady ⟨some uploadB, none, false⟩ rmIngestFailed).1 =
      { chat_history := [], processed_video := none,
        current_file_name := some uploadB.name } :=
  (failed_ingestion_stores_identity_and_blocks_reingest sReady uploadB rmIngestFailed
    (by decide)
    (fun h hc => by simp [rmIngestFailed, rmOk] at hc)).1

/-- Counterexample to claim C5 as stated: the temp file is created and
written at lines 39-41, before the `try` of line 43, so an exception
raised during staging (for example `tmp_file.write` failing with the
disk full) leaves `process_video` with the temp file still on disk —
the second component `true` below — because the `finally` of
lines 65-68 is never entered.  Deletion on every exit path therefore
fails for staging exceptions. -/
theorem staging_exception_leaks_temp_counterexample :
    process_video (Staging.raiseAfterCreate "disk full") pvGatewayC 0 =
      some (PVOutcome.exn "disk full", true) := rfl

/-- Claim C5 amended: on every exit path other than an exception during
staging after the temp file's creation — success, remote `FAILED`
status, an exception from the upload call, an exception from a poll
re-fetch, and an exception before the temp file exists — `process_video`
ends with the temp file deleted. -/
theorem temp_deleted_on_nonstaging_exits
    (stg : Staging) (gw : PVGateway) (fuel : Nat) (out : PVOutcome) (b : Bool)
    (hstg : ∀ e, stg ≠ Staging.raiseAfterCreate e)
    (hrun : process_video stg gw fuel = some (out, b)) :
    b = false := by
  cases stg with
  | raiseAfterCreate e => exact absurd rfl (hstg e)
  | raiseBeforeCreate e =>
    simp [process_video] at hrun
    exact hrun.2
  | ok =>
    cases hu : gw.upload with
    | error e =>
      simp only [process_video, hu] at hrun
      simp at hrun
      exact hrun.2
    | ok f0 =>
      simp only [process_video, hu] at hrun
      cases hp : pollLoop gw.get fuel f0 0 0 with
      | none => rw [hp] at hrun; simp at hrun
      | some r =>
        rw [hp] at hrun
        obtain ⟨res, t⟩ := r
        cases res with
        | error e => simp at hrun; exact hrun.2
        | ok f =>
          by_cases hf : f.state = "FAILED"
          · simp [hf] at hrun; exact hrun.2
          · simp [hf] at hrun; exact hrun.2

/-- Witness for the amended C5: a successful run (staging fine, upload
returns an already-active file) ends with the temp file gone. -/
theorem temp_deleted_on_nonstaging_exits_witness :
    process_video Staging.ok pvGatewayC 1 = some (PVOutcome.ok fileC, false) ∧
    (false : Bool) = false :=
  ⟨rfl, temp_deleted_on_nonstaging_exits Staging.ok pvGatewayC 1 (PVOutcome.ok fileC) false
    (fun _ h => Staging.noConfusion h) rfl⟩

/-- When the poll loop (over a re-fetch oracle that never raises)
returns within its fuel, the status was non-`PROCESSING` initially or
at some re-fetch, the returned file's status is non-`PROCESSING`, and
the elapsed sleep time stays a multiple of the poll interval. -/
theorem pollLoop_pure_some (get : Nat → MediaFile) (fuel : Nat) :
    ∀ (f : MediaFile) (k t : Nat) (r : Except String MediaFile × Nat),
      pollLoop (pureGet get) fuel f k t = some r →
      (f.state ≠ "PROCESSING" ∨ ∃ n, (get n).state ≠ "PROCESSING") ∧
      (∃ g, r.1 = .ok g ∧ g.state ≠ "PROCESSING") ∧
      (POLL_INTERVAL ∣ t → POLL_INTERVAL ∣ r.2) := by
  induction fuel with
  | zero =>
    intro f k t r hr
    by_cases hf : f.state = "PROCESSING"
    · simp [pollLoop, hf] at hr
    · rw [pollLoop, if_neg hf] at hr
      obtain rfl : (Except.ok f, t) = r := by simpa using hr
      exact ⟨Or.inl hf, ⟨f, rfl, hf⟩, fun ht => ht⟩
  | succ fuel1 ih =>
    intro f k t r hr
    by_cases hf : f.state = "PROCESSING"
    · rw [pollLoop, if_pos hf] at hr
      have hr2 : pollLoop (pureGet get) fuel1 (get k) (k + 1) (t + POLL_INTERVAL) =
          some r := hr
      obtain ⟨h1, h2, h3⟩ := ih (get k) (k + 1) (t + POLL_INTERVAL) r hr2
      refine ⟨?_, h2, ?_⟩
      · rcases h1 with hgk | hex
        · exact Or.inr ⟨k, hgk⟩
        · exact Or.inr hex
      · intro ht
        exact h3 (Dvd.dvd.add ht dvd_rfl)
    · rw [pollLoop, if_neg hf] at hr
      obtain rfl : (Except.ok f, t) = r := by simpa using hr
      exact ⟨Or.inl hf, ⟨f, rfl, hf⟩, fun ht => ht⟩

/-- If some re-fetch eventually reports a non-`PROCESSING` status, the
poll loop returns given enough fuel, from any starting point. -/
theorem pollLoop_pure_terminates (get : Nat → MediaFile) :
    ∀ (m k t : Nat) (f : MediaFile), (get (k + m)).state ≠ "PROCESSING" →
      ∃ r, pollLoop (pureGet get) (m + 1) f k t = some r := by
  intro m
  induction m with
  | zero =>
    intro k t f hget
    by_cases hf : f.state = "PROCESSING"
    · refine ⟨(Except.ok (get k), t + POLL_INTERVAL), ?_⟩
      rw [pollLoop, if_pos hf]
      show pollLoop (pureGet get) 0 (get k) (k + 1) (t + POLL_INTERVAL) = _
      rw [pollLoop, if_neg (by simpa using hget)]
    · exact ⟨(Except.ok f, t), by rw [pollLoop, if_neg hf]⟩
  | succ m1 ih =>
    intro k t f hget
    by_cases hf : f.state = "PROCESSING"
    · have hget2 : (get ((k + 1) + m1)).state ≠ "PROCESSING" := by
        have : (k + 1) + m1 = k + (m1 + 1) := by omega
        rw [this]
        exact hget
      obtain ⟨r, hr⟩ := ih (k + 1) (t + POLL_INTERVAL) (get k) hget2
      refine ⟨r, ?_⟩
      rw [pollLoop, if_pos hf]
      exact hr
    · exact ⟨(Except.ok f, t), by rw [pollLoop, if_neg hf]⟩

/-- Claim C7: the poll loop of lines 52-54 sleeps a fixed
`POLL_INTERVAL = 2` then re-fetches, with no retry bound and no
timeout: for any re-fetch behaviour it terminates exactly when the
status is non-`PROCESSING` initially or at some re-fetch (in
particular, arbitrarily late answers are still waited out), and any
terminating run ends on a non-`PROCESSING` file having slept a whole
number of intervals. -/
theorem poll_terminates_iff_eventually_not_processing
    (get : Nat → MediaFile) (f0 : MediaFile) :
    ((∃ fuel r, pollLoop (pureGet get) fuel f0 0 0 = some r) ↔
      (f0.state ≠ "PROCESSING" ∨ ∃ n, (get n).state ≠ "PROCESSING")) ∧
    (∀ fuel res t, pollLoop (pureGet get) fuel f0 0 0 = some (res, t) →
      (∃ g, res = .ok g ∧ g.state ≠ "PROCESSING") ∧ POLL_INTERVAL ∣ t) := by
  constructor
  · constructor
    · rintro ⟨fuel, r, hr⟩
      exact (pollLoop_pure_some get fuel f0 0 0 r hr).1
    · rintro (hf | ⟨n, hn⟩)
      · exact ⟨0, (Except.ok f0, 0), by rw [pollLoop, if_neg hf]⟩
      · obtain ⟨r, hr⟩ := pollLoop_pure_terminates get n 0 0 f0 (by simpa using hn)
        exact ⟨n + 1, r, hr⟩
  · intro fuel res t hr
    obtain ⟨_, h2, h3⟩ := pollLoop_pure_some get fuel f0 0 0 (res, t) hr
    exact ⟨h2, h3 (dvd_zero POLL_INTERVAL)⟩

/-- Witness for C7: with a status sequence that is still `PROCESSING`
at the first re-fetch and done at the second, the loop terminates. -/
theorem poll_terminates_iff_eventually_not_processing_witness :
    ∃ fuel r, pollLoop (pureGet getW) fuel fileProc 0 0 = some r :=
  (poll_terminates_iff_eventually_not_processing getW fileProc).1.mpr
    (Or.inr ⟨1, by decide⟩)

end VideoQA
